import Mathlib

/-!
# Coffee-machine scene (`coffeemachine.js`)

A shallow embedding of the geometry builder, the hex colour conversion, the
coffee-drop animation parameter, the texture selection and the transform chain
of `render()`.

JavaScript numbers are modelled by exact rationals (`ℚ`); JavaScript arrays of
numbers by `List ℚ`.  `NaN` is `none` in `Option`.
-/

namespace CoffeeMachine

/-! ## Geometry arrays -/

/-- The four geometry arrays `verts`, `colors`, `normals`, `texCoords` of `main`. -/
structure Buffers where
  verts : List ℚ
  colors : List ℚ
  normals : List ℚ
  texCoords : List ℚ
deriving DecidableEq

/-- The arrays as `main` creates them: `const verts = [], colors = [], ...`. -/
def Buffers.empty : Buffers := ⟨[], [], [], []⟩

/-- Source `addFace(v1, v2, v3, v4, normal, color)`.
`color.slice(0, 3)` is `color.take 3`; the `for` loop runs its body six times,
each time pushing `normal` onto `normals` and `c` onto `colors`. -/
def addFace (b : Buffers) (v1 v2 v3 v4 normal color : List ℚ) : Buffers :=
  let c := color.take 3
  let verts := b.verts ++ (v1 ++ v2 ++ v3 ++ v1 ++ v3 ++ v4)
  let nc := (List.range 6).foldl
    (fun (acc : List ℚ × List ℚ) (_ : ℕ) => (acc.1 ++ normal, acc.2 ++ c))
    (b.normals, b.colors)
  let texCoords := b.texCoords ++ [0, 0, 1, 0, 1, 1, 0, 0, 1, 1, 0, 1]
  { verts := verts, colors := nc.2, normals := nc.1, texCoords := texCoords }

/-- Source `addBox(minX, maxX, minY, maxY, minZ, maxZ, color)`: the eight corners
`p[0..7]` and the six `addFace` calls in source order. -/
def addBox (b : Buffers) (minX maxX minY maxY minZ maxZ : ℚ) (color : List ℚ) : Buffers :=
  let p0 := [minX, minY, maxZ]
  let p1 := [maxX, minY, maxZ]
  let p2 := [maxX, maxY, maxZ]
  let p3 := [minX, maxY, maxZ]
  let p4 := [minX, minY, minZ]
  let p5 := [minX, maxY, minZ]
  let p6 := [maxX, maxY, minZ]
  let p7 := [maxX, minY, minZ]
  let b := addFace b p0 p1 p2 p3 [0, 0, 1] color
  let b := addFace b p7 p6 p5 p4 [0, 0, -1] color
  let b := addFace b p1 p7 p6 p2 [1, 0, 0] color
  let b := addFace b p4 p0 p3 p5 [-1, 0, 0] color
  let b := addFace b p3 p2 p6 p5 [0, 1, 0] color
  addFace b p0 p4 p7 p1 [0, -1, 0] color

/-- The model `main` builds: the filled arrays and the four recorded draw ranges.
`start` and `count` are JavaScript numbers (`verts.length / 3` is a real division). -/
structure Model where
  buffers : Buffers
  standStart : ℚ
  standCount : ℚ
  machineStart : ℚ
  machineCount : ℚ
  coffeeStart : ℚ
  coffeeCount : ℚ
  cupStart : ℚ
  cupCount : ℚ

/-- The vent loop of `main`: `for (let i = 0; i < 4; i++)` with `y0 = 0.5 - i * 0.12`. -/
def addVents (b : Buffers) : Buffers :=
  (List.range 4).foldl
    (fun (acc : Buffers) (i : ℕ) =>
      let y0 : ℚ := 0.5 - (i : ℚ) * 0.12
      addBox acc (-0.38) (-0.25) (y0 - 0.03) (y0 + 0.03) (-0.235) (-0.23) [0.85, 0.85, 0.85, 1.0])
    b

/-- The section "Build model & record ranges" of `main`, statement by statement. -/
def buildModel : Model :=
  let b := Buffers.empty
  -- Stand
  let standStart : ℚ := 0
  let b := addBox b (-0.45) 0.45 (-1.4) (-0.2) (-0.30) 0.30 [0.45, 0.28, 0.10, 1.0]
  let standCount : ℚ := ((b.verts.length : ℚ) / 3) - standStart
  -- Machine
  let machineStart : ℚ := (b.verts.length : ℚ) / 3
  let b := addBox b (-0.4) 0.4 (-0.2) 1.0 (-0.25) 0.25 [0.12, 0.12, 0.12, 1.0]
  let b := addBox b (-0.42) 0.42 1.0 1.08 (-0.28) 0.28 [0.60, 0.60, 0.60, 1.0]
  let b := addBox b 0.15 0.38 0.15 0.75 (-0.24) 0.24 [0.02, 0.02, 0.02, 1.0]
  let b := addBox b 0.175 0.355 0.45 0.62 (-0.235) 0.235 [0.10, 0.40, 0.90, 1.0]
  let b := addBox b (-0.1) 0.1 0.8 0.95 (-0.255) 0.255 [0.95, 0.75, 0.08, 1.0]
  let b := addBox b (-0.18) 0.18 (-0.05) 0.35 0.25 0.50 [0.07, 0.07, 0.07, 1.0]
  let b := addBox b (-0.16) 0.16 (-0.12) 0.05 0.40 0.45 [0.70, 0.70, 0.70, 1.0]
  let b := addBox b (-0.12) 0.12 (-0.14) (-0.06) 0.30 0.40 [0.20, 0.20, 0.20, 1.0]
  let b := addVents b
  let b := addBox b (-0.5) 0.5 (-0.3) (-0.2) (-0.3) 0.3 [0.95, 0.75, 0.08, 1.0]
  let machineCount : ℚ := ((b.verts.length : ℚ) / 3) - machineStart
  -- Coffee
  let coffeeStart : ℚ := (b.verts.length : ℚ) / 3
  let b := addBox b (-0.03) 0.03 (-0.25) 0.10 0.38 0.44 [0.25, 0.12, 0.02, 1.0]
  let coffeeCount : ℚ := ((b.verts.length : ℚ) / 3) - coffeeStart
  -- Cup
  let cupStart : ℚ := (b.verts.length : ℚ) / 3
  let b := addBox b (-0.12) 0.12 (-0.35) (-0.10) 0.36 0.46 [0.00, 0.00, 0.00, 1.0]
  let b := addBox b (-0.13) 0.13 (-0.10) (-0.05) 0.35 0.47 [1.00, 0.90, 0.15, 1.0]
  let b := addBox b (-0.135) 0.135 (-0.05) (-0.03) 0.345 0.475 [0.95, 0.95, 0.95, 1.0]
  let cupCount : ℚ := ((b.verts.length : ℚ) / 3) - cupStart
  { buffers := b,
    standStart := standStart, standCount := standCount,
    machineStart := machineStart, machineCount := machineCount,
    coffeeStart := coffeeStart, coffeeCount := coffeeCount,
    cupStart := cupStart, cupCount := cupCount }

/-! ## Reading the arrays the way the vertex attributes are set up
(`setupBuffer(verts, "aPosition", 3)`, `setupBuffer(texCoords, "aTexCoord", 2)`). -/

/-- Attribute `i` of a size-3 array: components `3i`, `3i+1`, `3i+2`. -/
def vec3At (l : List ℚ) (i : ℕ) : ℚ × ℚ × ℚ :=
  (l.getD (3 * i) 0, l.getD (3 * i + 1) 0, l.getD (3 * i + 2) 0)

/-- Attribute `i` of a size-2 array: components `2i`, `2i+1`. -/
def vec2At (l : List ℚ) (i : ℕ) : ℚ × ℚ :=
  (l.getD (2 * i) 0, l.getD (2 * i + 1) 0)

/-- The numbers one `addBox` call appends to `verts`. -/
def boxVerts (minX maxX minY maxY minZ maxZ : ℚ) : List ℚ :=
  [minX, minY, maxZ, maxX, minY, maxZ, maxX, maxY, maxZ,
   minX, minY, maxZ, maxX, maxY, maxZ, minX, maxY, maxZ,
   maxX, minY, minZ, maxX, maxY, minZ, minX, maxY, minZ,
   maxX, minY, minZ, minX, maxY, minZ, minX, minY, minZ,
   maxX, minY, maxZ, maxX, minY, minZ, maxX, maxY, minZ,
   maxX, minY, maxZ, maxX, maxY, minZ, maxX, maxY, maxZ,
   minX, minY, minZ, minX, minY, maxZ, minX, maxY, maxZ,
   minX, minY, minZ, minX, maxY, maxZ, minX, maxY, minZ,
   minX, maxY, maxZ, maxX, maxY, maxZ, maxX, maxY, minZ,
   minX, maxY, maxZ, maxX, maxY, minZ, minX, maxY, minZ,
   minX, minY, maxZ, minX, minY, minZ, maxX, minY, minZ,
   minX, minY, maxZ, maxX, minY, minZ, maxX, minY, maxZ]

/-- The numbers one `addBox` call appends to `normals`. -/
def boxNormals : List ℚ :=
  [0, 0, 1, 0, 0, 1, 0, 0, 1, 0, 0, 1, 0, 0, 1, 0, 0, 1,
   0, 0, -1, 0, 0, -1, 0, 0, -1, 0, 0, -1, 0, 0, -1, 0, 0, -1,
   1, 0, 0, 1, 0, 0, 1, 0, 0, 1, 0, 0, 1, 0, 0, 1, 0, 0,
   -1, 0, 0, -1, 0, 0, -1, 0, 0, -1, 0, 0, -1, 0, 0, -1, 0, 0,
   0, 1, 0, 0, 1, 0, 0, 1, 0, 0, 1, 0, 0, 1, 0, 0, 1, 0,
   0, -1, 0, 0, -1, 0, 0, -1, 0, 0, -1, 0, 0, -1, 0, 0, -1, 0]

/-- The numbers one `addBox` call appends to `texCoords`. -/
def boxTexCoords : List ℚ :=
  [0, 0, 1, 0, 1, 1, 0, 0, 1, 1, 0, 1, 0, 0, 1, 0, 1, 1, 0, 0, 1, 1, 0, 1,
   0, 0, 1, 0, 1, 1, 0, 0, 1, 1, 0, 1, 0, 0, 1, 0, 1, 1, 0, 0, 1, 1, 0, 1,
   0, 0, 1, 0, 1, 1, 0, 0, 1, 1, 0, 1, 0, 0, 1, 0, 1, 1, 0, 0, 1, 1, 0, 1]


/-- The arguments of one `addBox` call. -/
structure BoxArgs where
  minX : ℚ
  maxX : ℚ
  minY : ℚ
  maxY : ℚ
  minZ : ℚ
  maxZ : ℚ
  color : List ℚ

/-- A sequence of `addBox` calls, run one after the other on the arrays. -/
def addBoxes (b : Buffers) (calls : List BoxArgs) : Buffers :=
  calls.foldl (fun acc a => addBox acc a.minX a.maxX a.minY a.maxY a.minZ a.maxZ a.color) b

/-- Vertex index `i` is drawn by `gl.drawArrays(gl.TRIANGLES, start, count)`. -/
def inRange (start count : ℚ) (i : ℕ) : Prop := start ≤ (i : ℚ) ∧ (i : ℚ) < start + count

/-! ## Faces of a box, as the specification names them -/

/-- The normal of face `f` in the order front, back, right, left, top, bottom:
`+Z, -Z, +X, -X, +Y, -Y`. -/
def faceNormal : ℕ → ℚ × ℚ × ℚ
  | 0 => (0, 0, 1)
  | 1 => (0, 0, -1)
  | 2 => (1, 0, 0)
  | 3 => (-1, 0, 0)
  | 4 => (0, 1, 0)
  | _ => (0, -1, 0)

/-- Point `v` lies on the bounding plane of face `f`: front `z = maxZ`, back
`z = minZ`, right `x = maxX`, left `x = minX`, top `y = maxY`, bottom `y = minY`. -/
def onFacePlane (a : BoxArgs) (f : ℕ) (v : ℚ × ℚ × ℚ) : Prop :=
  match f with
  | 0 => v.2.2 = a.maxZ
  | 1 => v.2.2 = a.minZ
  | 2 => v.1 = a.maxX
  | 3 => v.1 = a.minX
  | 4 => v.2.1 = a.maxY
  | _ => v.2.1 = a.minY

/-- The centre of the box. -/
def boxCenter (a : BoxArgs) : ℚ × ℚ × ℚ :=
  ((a.minX + a.maxX) / 2, (a.minY + a.maxY) / 2, (a.minZ + a.maxZ) / 2)

/-- Difference of two points. -/
def vsub (u v : ℚ × ℚ × ℚ) : ℚ × ℚ × ℚ := (u.1 - v.1, u.2.1 - v.2.1, u.2.2 - v.2.2)

/-- Dot product. -/
def dot (u v : ℚ × ℚ × ℚ) : ℚ := u.1 * v.1 + u.2.1 * v.2.1 + u.2.2 * v.2.2

/-- Cross product. -/
def cross (u v : ℚ × ℚ × ℚ) : ℚ × ℚ × ℚ :=
  (u.2.1 * v.2.2 - u.2.2 * v.2.1, u.2.2 * v.1 - u.1 * v.2.2, u.1 * v.2.1 - u.2.1 * v.1)

/-- Multiple of a vector. -/
def vsmul (k : ℚ) (v : ℚ × ℚ × ℚ) : ℚ × ℚ × ℚ := (k * v.1, k * v.2.1, k * v.2.2)

/-- The texture coordinates of the six vertices of a quad. -/
def quadTexCoord : ℕ → ℚ × ℚ
  | 0 => (0, 0)
  | 1 => (1, 0)
  | 2 => (1, 1)
  | 3 => (0, 0)
  | 4 => (1, 1)
  | _ => (0, 1)

/-- The box has `min ≠ max` on both axes that span face `f`: x and y for front and
back, y and z for right and left, x and z for top and bottom. -/
def faceSpans (a : BoxArgs) (f : ℕ) : Prop :=
  match f with
  | 0 => a.minX ≠ a.maxX ∧ a.minY ≠ a.maxY
  | 1 => a.minX ≠ a.maxX ∧ a.minY ≠ a.maxY
  | 2 => a.minY ≠ a.maxY ∧ a.minZ ≠ a.maxZ
  | 3 => a.minY ≠ a.maxY ∧ a.minZ ≠ a.maxZ
  | _ => a.minX ≠ a.maxX ∧ a.minZ ≠ a.maxZ

/-- In face `f` of the positions `V`, the triangles (vertices 0-2 and 3-5 of the
face) share exactly the first and third vertex of the first triangle: vertex 3 is
vertex 0, vertex 4 is vertex 2, and no other position of the first triangle is a
position of the second. -/
def sharesExactlyV1V3 (V : List ℚ) (f : ℕ) : Prop :=
  vec3At V (6 * f) = vec3At V (6 * f + 3) ∧
  vec3At V (6 * f + 2) = vec3At V (6 * f + 4) ∧
  vec3At V (6 * f) ≠ vec3At V (6 * f + 4) ∧
  vec3At V (6 * f) ≠ vec3At V (6 * f + 5) ∧
  vec3At V (6 * f + 1) ≠ vec3At V (6 * f + 3) ∧
  vec3At V (6 * f + 1) ≠ vec3At V (6 * f + 4) ∧
  vec3At V (6 * f + 1) ≠ vec3At V (6 * f + 5) ∧
  vec3At V (6 * f + 2) ≠ vec3At V (6 * f + 3) ∧
  vec3At V (6 * f + 2) ≠ vec3At V (6 * f + 5)

/-- In face `f` of the positions `V` with normals `N`, both triangles are wound so
that the cross product of their edge vectors, taken in emission order, is a positive
multiple of the normal of the face. -/
def windingAgrees (V N : List ℚ) (f : ℕ) : Prop :=
  (∃ k : ℚ, 0 < k ∧
    cross (vsub (vec3At V (6 * f + 1)) (vec3At V (6 * f)))
        (vsub (vec3At V (6 * f + 2)) (vec3At V (6 * f))) = vsmul k (vec3At N (6 * f))) ∧
  (∃ k : ℚ, 0 < k ∧
    cross (vsub (vec3At V (6 * f + 4)) (vec3At V (6 * f + 3)))
        (vsub (vec3At V (6 * f + 5)) (vec3At V (6 * f + 3))) = vsmul k (vec3At N (6 * f + 3)))

/-! ## The coffee drop (`render`)

JavaScript numbers are IEEE doubles.  The definitions of this section compute the
remainder over exact rationals, with `0.2` as the rational `1/5`; they give the
translation `render` applies to the coffee up to the rounding of doubles, and no
statement about the exact values that the program computes is drawn from them. -/

/-- Truncation toward zero, the rounding of the JavaScript remainder. -/
def jsTrunc (q : ℚ) : ℤ := if 0 ≤ q then ⌊q⌋ else ⌈q⌉

/-- The JavaScript `%` on numbers, over exact rationals: `a - b * trunc (a / b)`,
so that the result has the sign of the dividend `a`. -/
def jsRem (a b : ℚ) : ℚ := a - b * (jsTrunc (a / b) : ℚ)

/-- Source `const fallDistance = 0.2;` in `render`, as the rational `1/5`. -/
def fallDistance : ℚ := 0.2

/-- Source `const dropY = -(coffeeTime % fallDistance);` in `render`, over exact
rationals. -/
def dropY (coffeeTime : ℚ) : ℚ := -(jsRem coffeeTime fallDistance)

/-! ## `hexToRgb` -/

/-- The white space and line terminator code points that `parseInt` skips. -/
def isStrWhiteSpace (c : Char) : Bool :=
  decide (c.toNat ∈ [9, 10, 11, 12, 13, 32, 160, 0x1680, 0x2000, 0x2001, 0x2002, 0x2003,
    0x2004, 0x2005, 0x2006, 0x2007, 0x2008, 0x2009, 0x200A, 0x2028, 0x2029, 0x202F,
    0x205F, 0x3000, 0xFEFF])

/-- The value of a character as a digit in bases up to 36. -/
def digitValue (c : Char) : Option ℕ :=
  if '0' ≤ c ∧ c ≤ '9' then some (c.toNat - '0'.toNat)
  else if 'a' ≤ c ∧ c ≤ 'z' then some (c.toNat - 'a'.toNat + 10)
  else if 'A' ≤ c ∧ c ≤ 'Z' then some (c.toNat - 'A'.toNat + 10)
  else none

/-- The value of a character as a radix-`R` digit, if it is one. -/
def radixDigit (R : ℕ) (c : Char) : Option ℕ :=
  (digitValue c).filter (fun d => decide (d < R))

/-- The built-in `parseInt(string, radix)` on a string given as its list of
characters; `none` is `NaN` (and `-0` is `0`). -/
def parseInt (string : List Char) (radix : ℕ) : Option ℤ :=
  let S := string.dropWhile isStrWhiteSpace
  let sign : ℤ := if S.head? = some '-' then -1 else 1
  let S := if S.head? = some '+' ∨ S.head? = some '-' then S.tail else S
  if radix ≠ 0 ∧ (radix < 2 ∨ 36 < radix) then none
  else
    let has0x : Bool :=
      decide ((radix = 0 ∨ radix = 16) ∧ (S.take 2 = ['0', 'x'] ∨ S.take 2 = ['0', 'X']))
    let R : ℕ := if has0x then 16 else if radix = 0 then 10 else radix
    let S := if has0x then S.drop 2 else S
    let Z := S.takeWhile (fun c => (radixDigit R c).isSome)
    if Z = [] then none
    else some (sign * ((Z.foldl (fun acc c => acc * R + (radixDigit R c).getD 0) 0 : ℕ) : ℤ))

/-- The string method `slice(start, end)` for non-negative integer arguments, on a
string whose characters all lie in the Basic Multilingual Plane, where one character
is one UTF-16 code unit (the unit `slice` counts). -/
def slice (s : List Char) (start stop : ℕ) : List Char := (s.take stop).drop start

/-- Source `hexToRgb(hex)`: three components, each `parseInt(hex.slice(..), 16) / 255`. -/
def hexToRgb (hex : List Char) : List (Option ℚ) :=
  [ (parseInt (slice hex 1 3) 16).map (fun (n : ℤ) => (n : ℚ) / 255),
    (parseInt (slice hex 3 5) 16).map (fun (n : ℤ) => (n : ℚ) / 255),
    (parseInt (slice hex 5 7) 16).map (fun (n : ℤ) => (n : ℚ) / 255) ]

/-- The hexadecimal digits, either case. -/
def hexDigits : List Char := "0123456789abcdefABCDEF".toList

/-- The base-16 value of a hexadecimal digit, as a table. -/
def hexValue : Char → ℕ
  | '0' => 0 | '1' => 1 | '2' => 2 | '3' => 3 | '4' => 4
  | '5' => 5 | '6' => 6 | '7' => 7 | '8' => 8 | '9' => 9
  | 'a' => 10 | 'b' => 11 | 'c' => 12 | 'd' => 13 | 'e' => 14 | 'f' => 15
  | 'A' => 10 | 'B' => 11 | 'C' => 12 | 'D' => 13 | 'E' => 14 | 'F' => 15
  | _ => 0

/-- The base-16 value of a two-digit substring. -/
def byteValue (h l : Char) : ℕ := 16 * hexValue h + hexValue l

/-! ## Matrices and the transform chain of `render` -/

/-- The `mat4` values of the linear algebra library. -/
abbrev Mat4 := Matrix (Fin 4) (Fin 4) ℚ

/-- Modelled from the spec: `mult` of the linear algebra library (its file is not
part of the sources), on two `mat4`: the 4×4 matrix product. -/
def mult (u v : Mat4) : Mat4 := u * v

/-- Modelled from the spec: `translate(x, y, z)` of the linear algebra library (its
file is not part of the sources), the affine translation by `(x, y, z)` acting on
column vectors. -/
def translate (x y z : ℚ) : Mat4 :=
  !![1, 0, 0, x; 0, 1, 0, y; 0, 0, 1, z; 0, 0, 0, 1]

/-- A point `(x, y, z)` transformed by a `mat4`, as the position `(x, y, z, 1)`. -/
def transformPoint (M : Mat4) (p : ℚ × ℚ × ℚ) : ℚ × ℚ × ℚ :=
  let v := M.mulVec ![p.1, p.2.1, p.2.2, 1]
  (v 0, v 1, v 2)

/-- The records `{ x, y, z }` of the hierarchy controls (`standT`, `machT`, `cupT`). -/
structure Offset where
  x : ℚ
  y : ℚ
  z : ℚ
deriving DecidableEq

/-- The two textures `main` creates. -/
inductive Texture where
  | checkerTex
  | imageTex
deriving DecidableEq

/-- What one call of `render` reads.  `root` and `V` are the matrices `render`
computes first from the scene and camera controls (`rotateX/Y/Z`, `scale` and `lookAt`
of the linear algebra library); they are taken as given here. -/
structure RenderState where
  root : Mat4
  V : Mat4
  standT : Offset
  machT : Offset
  cupT : Offset
  coffeeTime : ℚ
  useImageTex : Bool
  imageReady : Bool

/-- Source `const useTex = useImageTex && imageReady;`. -/
def useTex (s : RenderState) : Bool := s.useImageTex && s.imageReady

/-- Source `gl.bindTexture(gl.TEXTURE_2D, useTex ? imageTex : checkerTex);`. -/
def boundTexture (s : RenderState) : Texture :=
  if useTex s then Texture.imageTex else Texture.checkerTex

/-- Source `gl.uniform1i(uUseTex, useTex ? 1 : 0);`. -/
def uUseTex (s : RenderState) : ℤ := if useTex s then 1 else 0

/-- Source `const M_stand = mult(root, translate(standT.x, standT.y, standT.z));`. -/
def M_stand (s : RenderState) : Mat4 :=
  mult s.root (translate s.standT.x s.standT.y s.standT.z)

/-- Source `const M_mach = mult(M_stand, translate(machT.x, machT.y, machT.z));`. -/
def M_mach (s : RenderState) : Mat4 :=
  mult (M_stand s) (translate s.machT.x s.machT.y s.machT.z)

/-- Source `const M_coffee = mult(M_mach, translate(0.0, dropY, 0.0));`. -/
def M_coffee (s : RenderState) : Mat4 :=
  mult (M_mach s) (translate 0.0 (dropY s.coffeeTime) 0.0)

/-- Source `const M_cup = mult(M_mach, translate(cupT.x, cupT.y, cupT.z));`. -/
def M_cup (s : RenderState) : Mat4 :=
  mult (M_mach s) (translate s.cupT.x s.cupT.y s.cupT.z)

/-- One `gl.drawArrays(gl.TRIANGLES, first, count)` with the model-view matrix
uploaded for it. -/
structure DrawCall where
  modelView : Mat4
  first : ℚ
  count : ℚ

/-- What one call of `render` hands to the pipeline: the texture bound, the
`uUseTexture` flag and the four draw calls in order. -/
structure Frame where
  texture : Texture
  useTexFlag : ℤ
  draws : List DrawCall

/-- Source `render()`, for the model `m` built by `main`: texture selection, then
the draw calls of stand, machine, coffee and cup.  The clear, the projection matrix,
the lighting uniforms and the normal matrices are not part of this embedding. -/
def render (m : Model) (s : RenderState) : Frame :=
  { texture := boundTexture s,
    useTexFlag := uUseTex s,
    draws :=
      [ { modelView := mult s.V (M_stand s), first := m.standStart, count := m.standCount },
        { modelView := mult s.V (M_mach s), first := m.machineStart, count := m.machineCount },
        { modelView := mult s.V (M_coffee s), first := m.coffeeStart, count := m.coffeeCount },
        { modelView := mult s.V (M_cup s), first := m.cupStart, count := m.cupCount } ] }

/-! ## World-space vertices of a draw range -/

/-- The positions of the vertices `start, ..., start + count - 1` of `verts`. -/
def rangeVertices (verts : List ℚ) (start count : ℕ) : List (ℚ × ℚ × ℚ) :=
  (List.range count).map (fun i => vec3At verts (start + i))

/-- The vertices of a draw range transformed by the world matrix `M`. -/
def worldVertices (M : Mat4) (verts : List ℚ) (start count : ℕ) : List (ℚ × ℚ × ℚ) :=
  (rangeVertices verts start count).map (transformPoint M)

/-- Least element of a list of numbers. -/
def listMin (l : List ℚ) : ℚ := l.foldl min (l.headD 0)

/-- Greatest element of a list of numbers. -/
def listMax (l : List ℚ) : ℚ := l.foldl max (l.headD 0)

/-- The midpoint of the extents of a list of points on each axis. -/
def extentCenter (ps : List (ℚ × ℚ × ℚ)) : ℚ × ℚ × ℚ :=
  ((listMin (ps.map (fun p => p.1)) + listMax (ps.map (fun p => p.1))) / 2,
   (listMin (ps.map (fun p => p.2.1)) + listMax (ps.map (fun p => p.2.1))) / 2,
   (listMin (ps.map (fun p => p.2.2)) + listMax (ps.map (fun p => p.2.2))) / 2)

/-- The mean of a list of points. -/
def meanPoint (ps : List (ℚ × ℚ × ℚ)) : ℚ × ℚ × ℚ :=
  ((ps.map (fun p => p.1)).sum / ps.length,
   (ps.map (fun p => p.2.1)).sum / ps.length,
   (ps.map (fun p => p.2.2)).sum / ps.length)

/-! ## Basic lemmas about the builders -/

theorem addFace_eq (b : Buffers) (v1 v2 v3 v4 normal color : List ℚ) :
    addFace b v1 v2 v3 v4 normal color =
      { verts := b.verts ++ (v1 ++ v2 ++ v3 ++ v1 ++ v3 ++ v4),
        colors := b.colors ++ (List.replicate 6 (color.take 3)).flatten,
        normals := b.normals ++ (List.replicate 6 normal).flatten,
        texCoords := b.texCoords ++ [0, 0, 1, 0, 1, 1, 0, 0, 1, 1, 0, 1] } := by
  simp [addFace, List.range, List.range.loop, List.replicate, List.append_assoc]

theorem addBox_eq (b : Buffers) (minX maxX minY maxY minZ maxZ : ℚ) (color : List ℚ) :
    addBox b minX maxX minY maxY minZ maxZ color =
      { verts := b.verts ++ boxVerts minX maxX minY maxY minZ maxZ,
        colors := b.colors ++ (List.replicate 36 (color.take 3)).flatten,
        normals := b.normals ++ boxNormals,
        texCoords := b.texCoords ++ boxTexCoords } := by
  simp [addBox, addFace_eq, boxVerts, boxNormals, boxTexCoords, List.replicate,
    List.append_assoc]


theorem addBox_verts (b : Buffers) (minX maxX minY maxY minZ maxZ : ℚ) (color : List ℚ) :
    (addBox b minX maxX minY maxY minZ maxZ color).verts =
      b.verts ++ boxVerts minX maxX minY maxY minZ maxZ := by
  rw [addBox_eq]

theorem addBox_colors (b : Buffers) (minX maxX minY maxY minZ maxZ : ℚ) (color : List ℚ) :
    (addBox b minX maxX minY maxY minZ maxZ color).colors =
      b.colors ++ (List.replicate 36 (color.take 3)).flatten := by
  rw [addBox_eq]

theorem addBox_normals (b : Buffers) (minX maxX minY maxY minZ maxZ : ℚ) (color : List ℚ) :
    (addBox b minX maxX minY maxY minZ maxZ color).normals = b.normals ++ boxNormals := by
  rw [addBox_eq]

theorem addBox_texCoords (b : Buffers) (minX maxX minY maxY minZ maxZ : ℚ) (color : List ℚ) :
    (addBox b minX maxX minY maxY minZ maxZ color).texCoords = b.texCoords ++ boxTexCoords := by
  rw [addBox_eq]

theorem boxVerts_length (minX maxX minY maxY minZ maxZ : ℚ) :
    (boxVerts minX maxX minY maxY minZ maxZ).length = 108 := rfl

theorem boxNormals_length : boxNormals.length = 108 := rfl

theorem boxTexCoords_length : boxTexCoords.length = 72 := rfl

theorem boxColors_length (color : List ℚ) (h : 3 ≤ color.length) :
    ((List.replicate 36 (color.take 3)).flatten).length = 108 := by
  have h3 : (color.take 3).length = 3 := by simp [List.length_take, h]
  simp [List.length_flatten, h3]

theorem addBox_verts_length (b : Buffers) (minX maxX minY maxY minZ maxZ : ℚ)
    (color : List ℚ) :
    (addBox b minX maxX minY maxY minZ maxZ color).verts.length = b.verts.length + 108 := by
  rw [addBox_verts, List.length_append, boxVerts_length]

theorem addVents_verts_length (b : Buffers) :
    (addVents b).verts.length = b.verts.length + 432 := by
  simp [addVents, List.range, List.range.loop, addBox_verts_length]

theorem addBoxes_lengths (calls : List BoxArgs) (h : ∀ c ∈ calls, 3 ≤ c.color.length) :
    ∀ b : Buffers,
      (addBoxes b calls).verts.length = b.verts.length + 108 * calls.length ∧
      (addBoxes b calls).colors.length = b.colors.length + 108 * calls.length ∧
      (addBoxes b calls).normals.length = b.normals.length + 108 * calls.length ∧
      (addBoxes b calls).texCoords.length = b.texCoords.length + 72 * calls.length := by
  induction calls with
  | nil => intro b; simp [addBoxes]
  | cons a rest ih =>
    intro b
    have ha : 3 ≤ a.color.length := h a (List.mem_cons_self _ _)
    have hrest : ∀ c ∈ rest, 3 ≤ c.color.length := fun c hc => h c (List.mem_cons_of_mem _ hc)
    obtain ⟨h1, h2, h3, h4⟩ :=
      ih hrest (addBox b a.minX a.maxX a.minY a.maxY a.minZ a.maxZ a.color)
    simp only [addBoxes, List.foldl_cons] at h1 h2 h3 h4 ⊢
    rw [h1, h2, h3, h4, addBox_verts, addBox_colors, addBox_normals, addBox_texCoords]
    simp only [List.length_append, boxVerts_length, boxNormals_length, boxTexCoords_length,
      boxColors_length a.color ha, List.length_cons]
    refine ⟨?_, ?_, ?_, ?_⟩ <;> omega

/-! ## C2 -/

/-- C2: for all six bounds and every colour with at least 3 components, one `addBox`
call appends 108 numbers to `verts`, `colors` and `normals` and 72 to `texCoords`
(36 vertices each) and keeps what was in the arrays before as a prefix; and after any
sequence of such calls on the empty arrays the four vertex counts
`verts.length / 3`, `colors.length / 3`, `normals.length / 3`, `texCoords.length / 2`
agree (they are 36 times the number of calls). -/
theorem addBox_appends_36_vertices (b : Buffers) (a : BoxArgs) (calls : List BoxArgs)
    (ha : 3 ≤ a.color.length) (hcalls : ∀ c ∈ calls, 3 ≤ c.color.length) :
    (∃ vs cs ns ts : List ℚ,
      addBox b a.minX a.maxX a.minY a.maxY a.minZ a.maxZ a.color =
        { verts := b.verts ++ vs, colors := b.colors ++ cs,
          normals := b.normals ++ ns, texCoords := b.texCoords ++ ts } ∧
      vs.length = 108 ∧ cs.length = 108 ∧ ns.length = 108 ∧ ts.length = 72 ∧
      (vs.length : ℚ) / 3 = 36 ∧ (cs.length : ℚ) / 3 = 36 ∧
      (ns.length : ℚ) / 3 = 36 ∧ (ts.length : ℚ) / 2 = 36) ∧
    (((addBoxes Buffers.empty calls).verts.length : ℚ) / 3 = 36 * calls.length ∧
     ((addBoxes Buffers.empty calls).colors.length : ℚ) / 3 =
       ((addBoxes Buffers.empty calls).verts.length : ℚ) / 3 ∧
     ((addBoxes Buffers.empty calls).normals.length : ℚ) / 3 =
       ((addBoxes Buffers.empty calls).verts.length : ℚ) / 3 ∧
     ((addBoxes Buffers.empty calls).texCoords.length : ℚ) / 2 =
       ((addBoxes Buffers.empty calls).verts.length : ℚ) / 3) := by
  constructor
  · refine ⟨boxVerts a.minX a.maxX a.minY a.maxY a.minZ a.maxZ,
      (List.replicate 36 (a.color.take 3)).flatten, boxNormals, boxTexCoords,
      addBox_eq _ _ _ _ _ _ _ _, boxVerts_length _ _ _ _ _ _, boxColors_length _ ha,
      boxNormals_length, boxTexCoords_length, ?_, ?_, ?_, ?_⟩
    · rw [boxVerts_length]; norm_num
    · rw [boxColors_length _ ha]; norm_num
    · rw [boxNormals_length]; norm_num
    · rw [boxTexCoords_length]; norm_num
  · obtain ⟨h1, h2, h3, h4⟩ := addBoxes_lengths calls hcalls Buffers.empty
    rw [h1, h2, h3, h4]
    simp only [Buffers.empty, List.length_nil, Nat.zero_add]
    push_cast
    exact ⟨by ring, trivial, trivial, by ring⟩

/-- C2 at the stand box added to the empty arrays, and at the two-call sequence
stand box, machine body. -/
theorem addBox_appends_36_vertices_witness :
    (∃ vs cs ns ts : List ℚ,
      addBox Buffers.empty (-0.45) 0.45 (-1.4) (-0.2) (-0.30) 0.30 [0.45, 0.28, 0.10, 1.0] =
        { verts := [] ++ vs, colors := [] ++ cs, normals := [] ++ ns, texCoords := [] ++ ts } ∧
      vs.length = 108 ∧ cs.length = 108 ∧ ns.length = 108 ∧ ts.length = 72 ∧
      (vs.length : ℚ) / 3 = 36 ∧ (cs.length : ℚ) / 3 = 36 ∧
      (ns.length : ℚ) / 3 = 36 ∧ (ts.length : ℚ) / 2 = 36) ∧
    (((addBoxes Buffers.empty
        [⟨-0.45, 0.45, -1.4, -0.2, -0.30, 0.30, [0.45, 0.28, 0.10, 1.0]⟩,
         ⟨-0.4, 0.4, -0.2, 1.0, -0.25, 0.25, [0.12, 0.12, 0.12, 1.0]⟩]).verts.length : ℚ) / 3
        = 36 * (2 : ℕ) ∧
     ((addBoxes Buffers.empty
        [⟨-0.45, 0.45, -1.4, -0.2, -0.30, 0.30, [0.45, 0.28, 0.10, 1.0]⟩,
         ⟨-0.4, 0.4, -0.2, 1.0, -0.25, 0.25, [0.12, 0.12, 0.12, 1.0]⟩]).colors.length : ℚ) / 3
        = ((addBoxes Buffers.empty
        [⟨-0.45, 0.45, -1.4, -0.2, -0.30, 0.30, [0.45, 0.28, 0.10, 1.0]⟩,
         ⟨-0.4, 0.4, -0.2, 1.0, -0.25, 0.25, [0.12, 0.12, 0.12, 1.0]⟩]).verts.length : ℚ) / 3 ∧
     ((addBoxes Buffers.empty
        [⟨-0.45, 0.45, -1.4, -0.2, -0.30, 0.30, [0.45, 0.28, 0.10, 1.0]⟩,
         ⟨-0.4, 0.4, -0.2, 1.0, -0.25, 0.25, [0.12, 0.12, 0.12, 1.0]⟩]).normals.length : ℚ) / 3
        = ((addBoxes Buffers.empty
        [⟨-0.45, 0.45, -1.4, -0.2, -0.30, 0.30, [0.45, 0.28, 0.10, 1.0]⟩,
         ⟨-0.4, 0.4, -0.2, 1.0, -0.25, 0.25, [0.12, 0.12, 0.12, 1.0]⟩]).verts.length : ℚ) / 3 ∧
     ((addBoxes Buffers.empty
        [⟨-0.45, 0.45, -1.4, -0.2, -0.30, 0.30, [0.45, 0.28, 0.10, 1.0]⟩,
         ⟨-0.4, 0.4, -0.2, 1.0, -0.25, 0.25, [0.12, 0.12, 0.12, 1.0]⟩]).texCoords.length : ℚ) / 2
        = ((addBoxes Buffers.empty
        [⟨-0.45, 0.45, -1.4, -0.2, -0.30, 0.30, [0.45, 0.28, 0.10, 1.0]⟩,
         ⟨-0.4, 0.4, -0.2, 1.0, -0.25, 0.25, [0.12, 0.12, 0.12, 1.0]⟩]).verts.length : ℚ) / 3) :=
  addBox_appends_36_vertices Buffers.empty
    ⟨-0.45, 0.45, -1.4, -0.2, -0.30, 0.30, [0.45, 0.28, 0.10, 1.0]⟩
    [⟨-0.45, 0.45, -1.4, -0.2, -0.30, 0.30, [0.45, 0.28, 0.10, 1.0]⟩,
     ⟨-0.4, 0.4, -0.2, 1.0, -0.25, 0.25, [0.12, 0.12, 0.12, 1.0]⟩]
    (by decide) (by decide)

/-! ## C1 -/

theorem buildModel_ranges_eq :
    buildModel.standStart = 0 ∧ buildModel.standCount = 36 ∧
    buildModel.machineStart = 36 ∧ buildModel.machineCount = 468 ∧
    buildModel.coffeeStart = 504 ∧ buildModel.coffeeCount = 36 ∧
    buildModel.cupStart = 540 ∧ buildModel.cupCount = 108 ∧
    buildModel.buffers.verts.length = 1944 := by
  simp only [buildModel, addBox_verts_length, addVents_verts_length, Buffers.empty,
    List.length_nil]
  norm_num

/-- C1: after the model build of `main` the draw ranges are stand (0,36), machine
(36,468), coffee (504,36), cup (540,108), and `render` draws exactly these, in this
order; each range starts where the previous one ends, no vertex index lies in two
ranges, a vertex index lies in some range exactly when it is below
`verts.length / 3 = 648`, and every count is a multiple of 6. -/
theorem buildModel_draw_ranges :
    (buildModel.standStart, buildModel.standCount) = (0, 36) ∧
    (buildModel.machineStart, buildModel.machineCount) = (36, 468) ∧
    (buildModel.coffeeStart, buildModel.coffeeCount) = (504, 36) ∧
    (buildModel.cupStart, buildModel.cupCount) = (540, 108) ∧
    (∀ s : RenderState, (render buildModel s).draws.map (fun d => (d.first, d.count)) =
      [(0, 36), (36, 468), (504, 36), (540, 108)]) ∧
    buildModel.machineStart = buildModel.standStart + buildModel.standCount ∧
    buildModel.coffeeStart = buildModel.machineStart + buildModel.machineCount ∧
    buildModel.cupStart = buildModel.coffeeStart + buildModel.coffeeCount ∧
    (buildModel.buffers.verts.length : ℚ) / 3 = 648 ∧
    buildModel.cupStart + buildModel.cupCount = (buildModel.buffers.verts.length : ℚ) / 3 ∧
    (∀ i : ℕ,
      ¬ (inRange buildModel.standStart buildModel.standCount i ∧
          inRange buildModel.machineStart buildModel.machineCount i) ∧
      ¬ (inRange buildModel.standStart buildModel.standCount i ∧
          inRange buildModel.coffeeStart buildModel.coffeeCount i) ∧
      ¬ (inRange buildModel.standStart buildModel.standCount i ∧
          inRange buildModel.cupStart buildModel.cupCount i) ∧
      ¬ (inRange buildModel.machineStart buildModel.machineCount i ∧
          inRange buildModel.coffeeStart buildModel.coffeeCount i) ∧
      ¬ (inRange buildModel.machineStart buildModel.machineCount i ∧
          inRange buildModel.cupStart buildModel.cupCount i) ∧
      ¬ (inRange buildModel.coffeeStart buildModel.coffeeCount i ∧
          inRange buildModel.cupStart buildModel.cupCount i)) ∧
    (∀ i : ℕ, (i : ℚ) < (buildModel.buffers.verts.length : ℚ) / 3 ↔
      (inRange buildModel.standStart buildModel.standCount i ∨
       inRange buildModel.machineStart buildModel.machineCount i ∨
       inRange buildModel.coffeeStart buildModel.coffeeCount i ∨
       inRange buildModel.cupStart buildModel.cupCount i)) ∧
    buildModel.standCount = 6 * 6 ∧ buildModel.machineCount = 6 * 78 ∧
    buildModel.coffeeCount = 6 * 6 ∧ buildModel.cupCount = 6 * 18 := by
  obtain ⟨h1, h2, h3, h4, h5, h6, h7, h8, h9⟩ := buildModel_ranges_eq
  have hr : ∀ s : RenderState, (render buildModel s).draws.map (fun d => (d.first, d.count)) =
      [(0, 36), (36, 468), (504, 36), (540, 108)] := by
    intro s
    simp only [render, List.map_cons, List.map_nil, h1, h2, h3, h4, h5, h6, h7, h8]
  rw [h1, h2, h3, h4, h5, h6, h7, h8, h9]
  refine ⟨rfl, rfl, rfl, rfl, hr, by norm_num, by norm_num, by norm_num,
    by norm_num, by norm_num, ?_, ?_, by norm_num, by norm_num, by norm_num, by norm_num⟩
  · intro i
    simp only [inRange]
    refine ⟨?_, ?_, ?_, ?_, ?_, ?_⟩ <;> rintro ⟨⟨a1, a2⟩, b1, b2⟩ <;> linarith
  · intro i
    simp only [inRange]
    have hpos : (0 : ℚ) ≤ (i : ℚ) := Nat.cast_nonneg i
    have e : ((1944 : ℕ) : ℚ) / 3 = 648 := by norm_num
    rw [e]
    constructor
    · intro hi
      by_cases c1 : (i : ℚ) < 36
      · exact Or.inl ⟨hpos, by linarith⟩
      · by_cases c2 : (i : ℚ) < 504
        · exact Or.inr (Or.inl ⟨by linarith, by linarith⟩)
        · by_cases c3 : (i : ℚ) < 540
          · exact Or.inr (Or.inr (Or.inl ⟨by linarith, by linarith⟩))
          · exact Or.inr (Or.inr (Or.inr ⟨by linarith, by linarith⟩))
    · rintro (⟨_, a⟩ | ⟨_, a⟩ | ⟨_, a⟩ | ⟨_, a⟩) <;> linarith

/-! ## C7 -/

/-- C7: in every frame `render` binds the image texture exactly when `useImageTex`
and `imageReady` are both true and the checker texture otherwise; the `uUseTexture`
flag is 1 exactly when the image texture is bound (and 0 otherwise); with
`useImageTex = true` the checker texture is bound while `imageReady = false` and the
image texture once `imageReady = true`. -/
theorem render_texture_selection (m : Model) (s : RenderState) :
    ((render m s).texture = Texture.imageTex ↔
      (s.useImageTex = true ∧ s.imageReady = true)) ∧
    ((render m s).texture = Texture.checkerTex ↔
      ¬ (s.useImageTex = true ∧ s.imageReady = true)) ∧
    ((render m s).useTexFlag = 1 ↔ (render m s).texture = Texture.imageTex) ∧
    ((render m s).useTexFlag = 0 ↔ (render m s).texture = Texture.checkerTex) ∧
    (render m { s with useImageTex := true, imageReady := false }).texture
      = Texture.checkerTex ∧
    (render m { s with useImageTex := true, imageReady := true }).texture
      = Texture.imageTex := by
  cases hu : s.useImageTex <;> cases hr : s.imageReady <;>
    simp [render, boundTexture, uUseTex, useTex, hu, hr]

/-! ## C3 -/

theorem translate_mul_translate (x y z a b c : ℚ) :
    translate x y z * translate a b c = translate (x + a) (y + b) (z + c) := by
  ext i j
  fin_cases i <;> fin_cases j <;>
    simp [translate, Matrix.mul_apply, Fin.sum_univ_four, Matrix.vecHead, Matrix.vecTail]
  all_goals ring

theorem translate_zero : translate 0 0 0 = (1 : Mat4) := by
  ext i j
  fin_cases i <;> fin_cases j <;> simp [translate, Matrix.vecHead, Matrix.vecTail]

theorem transformPoint_mul_translate (M : Mat4) (x y z : ℚ) (p : ℚ × ℚ × ℚ) :
    transformPoint (M * translate x y z) p =
      transformPoint M (p.1 + x, p.2.1 + y, p.2.2 + z) := by
  simp only [transformPoint, translate, Matrix.mulVec, Matrix.dotProduct, Matrix.mul_apply,
    Fin.sum_univ_four]
  simp [Matrix.vecHead, Matrix.vecTail]
  refine ⟨?_, ?_, ?_⟩ <;> ring

theorem transformPoint_eq (M : Mat4) (p : ℚ × ℚ × ℚ) :
    transformPoint M p =
      (M 0 0 * p.1 + M 0 1 * p.2.1 + M 0 2 * p.2.2 + M 0 3,
       M 1 0 * p.1 + M 1 1 * p.2.1 + M 1 2 * p.2.2 + M 1 3,
       M 2 0 * p.1 + M 2 1 * p.2.1 + M 2 2 * p.2.2 + M 2 3) := by
  simp [transformPoint, Matrix.mulVec, Matrix.dotProduct, Fin.sum_univ_four,
    Matrix.vecHead, Matrix.vecTail]

/-- C3: in `render`, for every root matrix and all offsets,
`M_stand = root · translate(standT)`, `M_mach = M_stand · translate(machT)
= root · translate(standT + machT)`, and `M_coffee`, `M_cup` are `M_mach` times their
own translation.  Replacing the machine offset by any `m'` leaves `M_stand` unchanged.
Replacing the stand offset `standT` by `standT + d` multiplies both `M_stand` and
`M_mach` on the right by `translate(d)`, and displaces every point `p` of the machine
by the same vector as it displaces `p` as a point of the stand. -/
theorem render_transform_chain (s : RenderState) (m' d : Offset) (p : ℚ × ℚ × ℚ) :
    M_stand s = s.root * translate s.standT.x s.standT.y s.standT.z ∧
    M_mach s = M_stand s * translate s.machT.x s.machT.y s.machT.z ∧
    M_mach s = s.root *
      translate (s.standT.x + s.machT.x) (s.standT.y + s.machT.y) (s.standT.z + s.machT.z) ∧
    M_stand { s with machT := m' } = M_stand s ∧
    M_stand { s with standT := ⟨s.standT.x + d.x, s.standT.y + d.y, s.standT.z + d.z⟩ } =
      M_stand s * translate d.x d.y d.z ∧
    M_mach { s with standT := ⟨s.standT.x + d.x, s.standT.y + d.y, s.standT.z + d.z⟩ } =
      M_mach s * translate d.x d.y d.z ∧
    M_mach { s with standT := ⟨s.standT.x + d.x, s.standT.y + d.y, s.standT.z + d.z⟩ } =
      M_stand { s with standT := ⟨s.standT.x + d.x, s.standT.y + d.y, s.standT.z + d.z⟩ } *
        translate s.machT.x s.machT.y s.machT.z ∧
    ((transformPoint (M_mach { s with standT :=
          ⟨s.standT.x + d.x, s.standT.y + d.y, s.standT.z + d.z⟩ }) p).1
        - (transformPoint (M_mach s) p).1 =
      (transformPoint (M_stand { s with standT :=
          ⟨s.standT.x + d.x, s.standT.y + d.y, s.standT.z + d.z⟩ }) p).1
        - (transformPoint (M_stand s) p).1 ∧
     (transformPoint (M_mach { s with standT :=
          ⟨s.standT.x + d.x, s.standT.y + d.y, s.standT.z + d.z⟩ }) p).2.1
        - (transformPoint (M_mach s) p).2.1 =
      (transformPoint (M_stand { s with standT :=
          ⟨s.standT.x + d.x, s.standT.y + d.y, s.standT.z + d.z⟩ }) p).2.1
        - (transformPoint (M_stand s) p).2.1 ∧
     (transformPoint (M_mach { s with standT :=
          ⟨s.standT.x + d.x, s.standT.y + d.y, s.standT.z + d.z⟩ }) p).2.2
        - (transformPoint (M_mach s) p).2.2 =
      (transformPoint (M_stand { s with standT :=
          ⟨s.standT.x + d.x, s.standT.y + d.y, s.standT.z + d.z⟩ }) p).2.2
        - (transformPoint (M_stand s) p).2.2) ∧
    M_coffee s = M_mach s * translate 0 (dropY s.coffeeTime) 0 ∧
    M_cup s = M_mach s * translate s.cupT.x s.cupT.y s.cupT.z := by
  have hs : M_stand { s with standT := ⟨s.standT.x + d.x, s.standT.y + d.y, s.standT.z + d.z⟩ } =
      M_stand s * translate d.x d.y d.z := by
    simp only [M_stand, mult, Matrix.mul_assoc, translate_mul_translate]
  have hm : M_mach { s with standT := ⟨s.standT.x + d.x, s.standT.y + d.y, s.standT.z + d.z⟩ } =
      M_mach s * translate d.x d.y d.z := by
    simp only [M_mach, M_stand, mult, Matrix.mul_assoc, translate_mul_translate]
    rw [add_right_comm s.standT.x, add_right_comm s.standT.y, add_right_comm s.standT.z]
  refine ⟨rfl, rfl, ?_, rfl, hs, hm, rfl, ?_, ?_, rfl⟩
  · simp only [M_mach, M_stand, mult, Matrix.mul_assoc, translate_mul_translate]
  · rw [hm, hs, transformPoint_mul_translate, transformPoint_mul_translate]
    have e1 : M_mach s = s.root * translate (s.standT.x + s.machT.x)
        (s.standT.y + s.machT.y) (s.standT.z + s.machT.z) := by
      simp only [M_mach, M_stand, mult, Matrix.mul_assoc, translate_mul_translate]
    have e2 : M_stand s = s.root * translate s.standT.x s.standT.y s.standT.z := rfl
    rw [e1, e2]
    simp only [transformPoint_mul_translate]
    simp only [transformPoint_eq]
    refine ⟨?_, ?_, ?_⟩ <;> ring
  · simp only [M_coffee]
    norm_num [mult]

/-! ## C4 -/

theorem addBox_verts_drop (b : Buffers) (a : BoxArgs) :
    (addBox b a.minX a.maxX a.minY a.maxY a.minZ a.maxZ a.color).verts.drop b.verts.length =
      boxVerts a.minX a.maxX a.minY a.maxY a.minZ a.maxZ := by
  rw [addBox_verts, List.drop_left]

theorem addBox_normals_drop (b : Buffers) (a : BoxArgs) :
    (addBox b a.minX a.maxX a.minY a.maxY a.minZ a.maxZ a.color).normals.drop b.normals.length =
      boxNormals := by
  rw [addBox_normals, List.drop_left]

theorem addBox_colors_drop (b : Buffers) (a : BoxArgs) :
    (addBox b a.minX a.maxX a.minY a.maxY a.minZ a.maxZ a.color).colors.drop b.colors.length =
      (List.replicate 36 (a.color.take 3)).flatten := by
  rw [addBox_colors, List.drop_left]

theorem addBox_texCoords_drop (b : Buffers) (a : BoxArgs) :
    (addBox b a.minX a.maxX a.minY a.maxY a.minZ a.maxZ a.color).texCoords.drop
      b.texCoords.length = boxTexCoords := by
  rw [addBox_texCoords, List.drop_left]

theorem boxNormals_face (f j : ℕ) (hf : f < 6) (hj : j < 6) :
    vec3At boxNormals (6 * f + j) = faceNormal f := by
  interval_cases f <;> interval_cases j <;> rfl

theorem boxTexCoords_face (f j : ℕ) (hf : f < 6) (hj : j < 6) :
    vec2At boxTexCoords (6 * f + j) = quadTexCoord j := by
  interval_cases f <;> interval_cases j <;> rfl

theorem boxVerts_face_plane (a : BoxArgs) (f j : ℕ) (hf : f < 6) (hj : j < 6) :
    onFacePlane a f (vec3At (boxVerts a.minX a.maxX a.minY a.maxY a.minZ a.maxZ) (6 * f + j)) := by
  interval_cases f <;> interval_cases j <;> rfl

theorem boxVerts_outward (a : BoxArgs) (f j : ℕ) (hf : f < 6) (hj : j < 6)
    (hx : a.minX < a.maxX) (hy : a.minY < a.maxY) (hz : a.minZ < a.maxZ) :
    0 < dot (vsub (vec3At (boxVerts a.minX a.maxX a.minY a.maxY a.minZ a.maxZ) (6 * f + j))
          (boxCenter a)) (faceNormal f) := by
  interval_cases f <;> interval_cases j <;>
    simp only [vec3At, boxVerts, boxCenter, vsub, dot, faceNormal, Nat.reduceMul,
      Nat.reduceAdd, List.getD_cons_succ, List.getD_cons_zero, mul_zero, mul_one, add_zero,
      zero_add, mul_neg] <;>
    linarith

theorem boxColors_vertex (color : List ℚ) (h : 3 ≤ color.length) (i : ℕ) (hi : i < 36) :
    vec3At ((List.replicate 36 (color.take 3)).flatten) i =
      (color.getD 0 0, color.getD 1 0, color.getD 2 0) := by
  match color, h with
  | c0 :: c1 :: c2 :: rest, _ =>
    interval_cases i <;> rfl

/-- C4: `addBox` emits its six faces in the order front, back, right, left, top,
bottom: vertex `j` of face `f` (vertex `6 f + j` of the box) carries the normal
`+Z, -Z, +X, -X, +Y, -Y` of face `f` and lies on the bounding plane of that face
(`z = maxZ`, `z = minZ`, `x = maxX`, `x = minX`, `y = maxY`, `y = minY`); when
`min < max` on every axis the normal points away from the centre of the box; the
colours appended are 36 copies of the first three components of `color`, so with at
least three components every vertex gets `(color[0], color[1], color[2])`; and the
texture coordinates of each face are `(0,0),(1,0),(1,1),(0,0),(1,1),(0,1)`. -/
theorem addBox_faces (b : Buffers) (a : BoxArgs) (f j : ℕ) (hf : f < 6) (hj : j < 6) :
    vec3At ((addBox b a.minX a.maxX a.minY a.maxY a.minZ a.maxZ a.color).normals.drop
        b.normals.length) (6 * f + j) = faceNormal f ∧
    onFacePlane a f
      (vec3At ((addBox b a.minX a.maxX a.minY a.maxY a.minZ a.maxZ a.color).verts.drop
        b.verts.length) (6 * f + j)) ∧
    (a.minX < a.maxX → a.minY < a.maxY → a.minZ < a.maxZ →
      0 < dot
        (vsub (vec3At ((addBox b a.minX a.maxX a.minY a.maxY a.minZ a.maxZ a.color).verts.drop
            b.verts.length) (6 * f + j)) (boxCenter a))
        (vec3At ((addBox b a.minX a.maxX a.minY a.maxY a.minZ a.maxZ a.color).normals.drop
            b.normals.length) (6 * f + j))) ∧
    (addBox b a.minX a.maxX a.minY a.maxY a.minZ a.maxZ a.color).colors =
      b.colors ++ (List.replicate 36 (a.color.take 3)).flatten ∧
    (3 ≤ a.color.length →
      vec3At ((addBox b a.minX a.maxX a.minY a.maxY a.minZ a.maxZ a.color).colors.drop
          b.colors.length) (6 * f + j) =
        (a.color.getD 0 0, a.color.getD 1 0, a.color.getD 2 0)) ∧
    vec2At ((addBox b a.minX a.maxX a.minY a.maxY a.minZ a.maxZ a.color).texCoords.drop
        b.texCoords.length) (6 * f + j) = quadTexCoord j := by
  rw [addBox_verts_drop, addBox_normals_drop, addBox_colors_drop, addBox_texCoords_drop,
    boxNormals_face f j hf hj]
  refine ⟨rfl, boxVerts_face_plane a f j hf hj, boxVerts_outward a f j hf hj,
    addBox_colors _ _ _ _ _ _ _ _, fun hc => boxColors_vertex a.color hc _ (by omega),
    boxTexCoords_face f j hf hj⟩

/-- C4 at the stand box, back face (`f = 1`), third vertex (`j = 2`). -/
theorem addBox_faces_witness :
    vec3At ((addBox Buffers.empty (-0.45) 0.45 (-1.4) (-0.2) (-0.30) 0.30
        [0.45, 0.28, 0.10, 1.0]).normals.drop 0) 8 = (0, 0, -1) ∧
    (vec3At ((addBox Buffers.empty (-0.45) 0.45 (-1.4) (-0.2) (-0.30) 0.30
        [0.45, 0.28, 0.10, 1.0]).verts.drop 0) 8).2.2 = -0.30 ∧
    0 < dot
        (vsub (vec3At ((addBox Buffers.empty (-0.45) 0.45 (-1.4) (-0.2) (-0.30) 0.30
            [0.45, 0.28, 0.10, 1.0]).verts.drop 0) 8)
          (boxCenter ⟨-0.45, 0.45, -1.4, -0.2, -0.30, 0.30, [0.45, 0.28, 0.10, 1.0]⟩))
        (vec3At ((addBox Buffers.empty (-0.45) 0.45 (-1.4) (-0.2) (-0.30) 0.30
            [0.45, 0.28, 0.10, 1.0]).normals.drop 0) 8) ∧
    vec3At ((addBox Buffers.empty (-0.45) 0.45 (-1.4) (-0.2) (-0.30) 0.30
        [0.45, 0.28, 0.10, 1.0]).colors.drop 0) 8 = (0.45, 0.28, 0.10) ∧
    vec2At ((addBox Buffers.empty (-0.45) 0.45 (-1.4) (-0.2) (-0.30) 0.30
        [0.45, 0.28, 0.10, 1.0]).texCoords.drop 0) 8 = (1, 1) := by
  have h := addBox_faces Buffers.empty
    ⟨-0.45, 0.45, -1.4, -0.2, -0.30, 0.30, [0.45, 0.28, 0.10, 1.0]⟩ 1 2
    (by norm_num) (by norm_num)
  exact ⟨h.1, h.2.1, h.2.2.1 (by norm_num) (by norm_num) (by norm_num),
    h.2.2.2.2.1 (by decide), h.2.2.2.2.2⟩

/-! ## C8 -/

theorem boxVerts_shared (a : BoxArgs) (f : ℕ) (hf : f < 6) :
    vec3At (boxVerts a.minX a.maxX a.minY a.maxY a.minZ a.maxZ) (6 * f) =
      vec3At (boxVerts a.minX a.maxX a.minY a.maxY a.minZ a.maxZ) (6 * f + 3) ∧
    vec3At (boxVerts a.minX a.maxX a.minY a.maxY a.minZ a.maxZ) (6 * f + 2) =
      vec3At (boxVerts a.minX a.maxX a.minY a.maxY a.minZ a.maxZ) (6 * f + 4) := by
  interval_cases f <;> exact ⟨rfl, rfl⟩

theorem boxVerts_sharesExactly_iff (a : BoxArgs) (f : ℕ) (hf : f < 6) :
    sharesExactlyV1V3 (boxVerts a.minX a.maxX a.minY a.maxY a.minZ a.maxZ) f ↔
      faceSpans a f := by
  have cx : a.maxX = a.minX ↔ a.minX = a.maxX := eq_comm
  have cy : a.maxY = a.minY ↔ a.minY = a.maxY := eq_comm
  have cz : a.maxZ = a.minZ ↔ a.minZ = a.maxZ := eq_comm
  interval_cases f <;>
    simp only [sharesExactlyV1V3, faceSpans, vec3At, boxVerts, Nat.reduceMul, Nat.reduceAdd,
      List.getD_cons_succ, List.getD_cons_zero, Prod.mk.injEq, ne_eq, true_and, and_true,
      and_self, cx, cy, cz] <;>
    tauto

theorem faceSpans_of_all (a : BoxArgs) (f : ℕ)
    (hx : a.minX ≠ a.maxX) (hy : a.minY ≠ a.maxY) (hz : a.minZ ≠ a.maxZ) :
    faceSpans a f := by
  unfold faceSpans
  split <;> simp [hx, hy, hz]

/-- C8 (amended): the vertices `addFace` appends are `v1, v2, v3, v1, v3, v4`, and in
each of the six faces of every box, whatever its dimensions, vertex 3 is vertex 0 and
vertex 4 is vertex 2.  The two triangles of face `f` share exactly these two vertices
(no other position of the first triangle is a position of the second) if and only if
the box has `min ≠ max` on both axes spanning that face; so they do in all six faces
when `min ≠ max` on every axis. -/
theorem addBox_triangles_share_v1_v3 (b : Buffers) (a : BoxArgs) (f : ℕ)
    (v1 v2 v3 v4 normal color : List ℚ) (hf : f < 6) :
    (addFace b v1 v2 v3 v4 normal color).verts =
      b.verts ++ (v1 ++ v2 ++ v3 ++ v1 ++ v3 ++ v4) ∧
    vec3At ((addBox b a.minX a.maxX a.minY a.maxY a.minZ a.maxZ a.color).verts.drop
        b.verts.length) (6 * f) =
      vec3At ((addBox b a.minX a.maxX a.minY a.maxY a.minZ a.maxZ a.color).verts.drop
        b.verts.length) (6 * f + 3) ∧
    vec3At ((addBox b a.minX a.maxX a.minY a.maxY a.minZ a.maxZ a.color).verts.drop
        b.verts.length) (6 * f + 2) =
      vec3At ((addBox b a.minX a.maxX a.minY a.maxY a.minZ a.maxZ a.color).verts.drop
        b.verts.length) (6 * f + 4) ∧
    (sharesExactlyV1V3
        ((addBox b a.minX a.maxX a.minY a.maxY a.minZ a.maxZ a.color).verts.drop
          b.verts.length) f ↔
      faceSpans a f) ∧
    (a.minX ≠ a.maxX → a.minY ≠ a.maxY → a.minZ ≠ a.maxZ →
      sharesExactlyV1V3
        ((addBox b a.minX a.maxX a.minY a.maxY a.minZ a.maxZ a.color).verts.drop
          b.verts.length) f) := by
  rw [addBox_verts_drop]
  exact ⟨rfl, (boxVerts_shared a f hf).1, (boxVerts_shared a f hf).2,
    boxVerts_sharesExactly_iff a f hf,
    fun hx hy hz => (boxVerts_sharesExactly_iff a f hf).mpr (faceSpans_of_all a f hx hy hz)⟩

/-- C8 (amended) at the front face of the box `addBox(0, 1, 0, 1, 2, 2, color)`, flat
in z: vertex 3 is vertex 0, vertex 4 is vertex 2, and since `minX ≠ maxX` and
`minY ≠ maxY` the two triangles share exactly these two vertices. -/
theorem addBox_triangles_share_v1_v3_witness :
    (addFace Buffers.empty [0, 0, 2] [1, 0, 2] [1, 1, 2] [0, 1, 2] [0, 0, 1] [1, 1, 1, 1]).verts =
      [] ++ ([0, 0, 2] ++ [1, 0, 2] ++ [1, 1, 2] ++ [0, 0, 2] ++ [1, 1, 2] ++ [0, 1, 2]) ∧
    vec3At ((addBox Buffers.empty 0 1 0 1 2 2 [1, 1, 1, 1]).verts.drop 0) (6 * 0) =
      vec3At ((addBox Buffers.empty 0 1 0 1 2 2 [1, 1, 1, 1]).verts.drop 0) (6 * 0 + 3) ∧
    vec3At ((addBox Buffers.empty 0 1 0 1 2 2 [1, 1, 1, 1]).verts.drop 0) (6 * 0 + 2) =
      vec3At ((addBox Buffers.empty 0 1 0 1 2 2 [1, 1, 1, 1]).verts.drop 0) (6 * 0 + 4) ∧
    sharesExactlyV1V3 ((addBox Buffers.empty 0 1 0 1 2 2 [1, 1, 1, 1]).verts.drop 0) 0 ∧
    ¬ sharesExactlyV1V3 ((addBox Buffers.empty 0 1 0 1 2 2 [1, 1, 1, 1]).verts.drop 0) 2 := by
  have h0 := addBox_triangles_share_v1_v3 Buffers.empty ⟨0, 1, 0, 1, 2, 2, [1, 1, 1, 1]⟩ 0
    [0, 0, 2] [1, 0, 2] [1, 1, 2] [0, 1, 2] [0, 0, 1] [1, 1, 1, 1] (by norm_num)
  have h2 := addBox_triangles_share_v1_v3 Buffers.empty ⟨0, 1, 0, 1, 2, 2, [1, 1, 1, 1]⟩ 2
    [0, 0, 2] [1, 0, 2] [1, 1, 2] [0, 1, 2] [0, 0, 1] [1, 1, 1, 1] (by norm_num)
  refine ⟨h0.1, h0.2.1, h0.2.2.1, h0.2.2.2.1.mpr ?_, fun hs => ?_⟩
  · exact ⟨by norm_num, by norm_num⟩
  · exact (h2.2.2.2.1.mp hs).2 rfl

/-- C8 as stated fails for the box `addBox(0, 0, 0, 1, 0, 1, color)` with
`minX = maxX`: in its front face the second vertex of the first triangle has the
position of the first vertex of the second triangle, a third shared position. -/
theorem addBox_degenerate_box_shares_more :
    vec3At (addBox Buffers.empty 0 0 0 1 0 1 [0, 0, 0, 1]).verts 1 =
      vec3At (addBox Buffers.empty 0 0 0 1 0 1 [0, 0, 0, 1]).verts 3 ∧
    ¬ sharesExactlyV1V3 (addBox Buffers.empty 0 0 0 1 0 1 [0, 0, 0, 1]).verts 0 := by
  have e : vec3At (addBox Buffers.empty 0 0 0 1 0 1 [0, 0, 0, 1]).verts 1 =
      vec3At (addBox Buffers.empty 0 0 0 1 0 1 [0, 0, 0, 1]).verts 3 := by
    rw [addBox_verts]; rfl
  exact ⟨e, fun h => h.2.2.2.2.1 e⟩

/-! ## C10 -/

theorem boxVerts_winding_front (a : BoxArgs) (hx : a.minX < a.maxX) (hy : a.minY < a.maxY) :
    windingAgrees (boxVerts a.minX a.maxX a.minY a.maxY a.minZ a.maxZ) boxNormals 0 := by
  have k : 0 < (a.maxX - a.minX) * (a.maxY - a.minY) :=
    mul_pos (sub_pos.mpr hx) (sub_pos.mpr hy)
  refine ⟨⟨_, k, ?_⟩, ⟨_, k, ?_⟩⟩ <;>
    simp only [vec3At, boxVerts, boxNormals, cross, vsub, vsmul, Nat.reduceMul, Nat.reduceAdd,
      List.getD_cons_succ, List.getD_cons_zero, Prod.mk.injEq] <;>
    refine ⟨?_, ?_, ?_⟩ <;> ring

theorem boxVerts_winding_right (a : BoxArgs) (hy : a.minY < a.maxY) (hz : a.minZ < a.maxZ) :
    windingAgrees (boxVerts a.minX a.maxX a.minY a.maxY a.minZ a.maxZ) boxNormals 2 := by
  have k : 0 < (a.maxY - a.minY) * (a.maxZ - a.minZ) :=
    mul_pos (sub_pos.mpr hy) (sub_pos.mpr hz)
  refine ⟨⟨_, k, ?_⟩, ⟨_, k, ?_⟩⟩ <;>
    simp only [vec3At, boxVerts, boxNormals, cross, vsub, vsmul, Nat.reduceMul, Nat.reduceAdd,
      List.getD_cons_succ, List.getD_cons_zero, Prod.mk.injEq] <;>
    refine ⟨?_, ?_, ?_⟩ <;> ring

theorem boxVerts_winding_left (a : BoxArgs) (hy : a.minY < a.maxY) (hz : a.minZ < a.maxZ) :
    windingAgrees (boxVerts a.minX a.maxX a.minY a.maxY a.minZ a.maxZ) boxNormals 3 := by
  have k : 0 < (a.maxY - a.minY) * (a.maxZ - a.minZ) :=
    mul_pos (sub_pos.mpr hy) (sub_pos.mpr hz)
  refine ⟨⟨_, k, ?_⟩, ⟨_, k, ?_⟩⟩ <;>
    simp only [vec3At, boxVerts, boxNormals, cross, vsub, vsmul, Nat.reduceMul, Nat.reduceAdd,
      List.getD_cons_succ, List.getD_cons_zero, Prod.mk.injEq] <;>
    refine ⟨?_, ?_, ?_⟩ <;> ring

theorem boxVerts_winding_top (a : BoxArgs) (hx : a.minX < a.maxX) (hz : a.minZ < a.maxZ) :
    windingAgrees (boxVerts a.minX a.maxX a.minY a.maxY a.minZ a.maxZ) boxNormals 4 := by
  have k : 0 < (a.maxX - a.minX) * (a.maxZ - a.minZ) :=
    mul_pos (sub_pos.mpr hx) (sub_pos.mpr hz)
  refine ⟨⟨_, k, ?_⟩, ⟨_, k, ?_⟩⟩ <;>
    simp only [vec3At, boxVerts, boxNormals, cross, vsub, vsmul, Nat.reduceMul, Nat.reduceAdd,
      List.getD_cons_succ, List.getD_cons_zero, Prod.mk.injEq] <;>
    refine ⟨?_, ?_, ?_⟩ <;> ring

theorem boxVerts_winding_bottom (a : BoxArgs) (hx : a.minX < a.maxX) (hz : a.minZ < a.maxZ) :
    windingAgrees (boxVerts a.minX a.maxX a.minY a.maxY a.minZ a.maxZ) boxNormals 5 := by
  have k : 0 < (a.maxX - a.minX) * (a.maxZ - a.minZ) :=
    mul_pos (sub_pos.mpr hx) (sub_pos.mpr hz)
  refine ⟨⟨_, k, ?_⟩, ⟨_, k, ?_⟩⟩ <;>
    simp only [vec3At, boxVerts, boxNormals, cross, vsub, vsmul, Nat.reduceMul, Nat.reduceAdd,
      List.getD_cons_succ, List.getD_cons_zero, Prod.mk.injEq] <;>
    refine ⟨?_, ?_, ?_⟩ <;> ring

/-- The back face `addFace(p[7], p[6], p[5], p[4], [0, 0, -1], color)`: the cross
product of the edges of its first triangle is
`(0, 0, (maxX - minX) * (maxY - minY))`, which points along `+Z`. -/
theorem boxVerts_back_cross (a : BoxArgs) :
    cross
      (vsub (vec3At (boxVerts a.minX a.maxX a.minY a.maxY a.minZ a.maxZ) 7)
        (vec3At (boxVerts a.minX a.maxX a.minY a.maxY a.minZ a.maxZ) 6))
      (vsub (vec3At (boxVerts a.minX a.maxX a.minY a.maxY a.minZ a.maxZ) 8)
        (vec3At (boxVerts a.minX a.maxX a.minY a.maxY a.minZ a.maxZ) 6)) =
      (0, 0, (a.maxX - a.minX) * (a.maxY - a.minY)) ∧
    vec3At boxNormals 6 = (0, 0, -1) := by
  refine ⟨?_, rfl⟩
  simp only [vec3At, boxVerts, cross, vsub, Nat.reduceMul, Nat.reduceAdd,
    List.getD_cons_succ, List.getD_cons_zero, Prod.mk.injEq]
  refine ⟨?_, ?_, ?_⟩ <;> ring

/-- For every box with `min < max` on every axis the front, right, left, top and
bottom faces are wound in agreement with their normals, and the back face is not. -/
theorem addBox_winding (b : Buffers) (a : BoxArgs)
    (hx : a.minX < a.maxX) (hy : a.minY < a.maxY) (hz : a.minZ < a.maxZ) :
    (∀ f : ℕ, f < 6 → f ≠ 1 →
      windingAgrees
        ((addBox b a.minX a.maxX a.minY a.maxY a.minZ a.maxZ a.color).verts.drop b.verts.length)
        ((addBox b a.minX a.maxX a.minY a.maxY a.minZ a.maxZ a.color).normals.drop
          b.normals.length) f) ∧
    ¬ windingAgrees
        ((addBox b a.minX a.maxX a.minY a.maxY a.minZ a.maxZ a.color).verts.drop b.verts.length)
        ((addBox b a.minX a.maxX a.minY a.maxY a.minZ a.maxZ a.color).normals.drop
          b.normals.length) 1 := by
  rw [addBox_verts_drop, addBox_normals_drop]
  constructor
  · intro f hf h1
    interval_cases f
    · exact boxVerts_winding_front a hx hy
    · exact absurd rfl h1
    · exact boxVerts_winding_right a hy hz
    · exact boxVerts_winding_left a hy hz
    · exact boxVerts_winding_top a hx hz
    · exact boxVerts_winding_bottom a hx hz
  · rintro ⟨⟨k, hk, h⟩, _⟩
    have hb := (boxVerts_back_cross a).1
    have hn := (boxVerts_back_cross a).2
    simp only [Nat.reduceMul] at h
    rw [hb, hn] at h
    simp only [vsmul, Prod.mk.injEq] at h
    have hpos : 0 < (a.maxX - a.minX) * (a.maxY - a.minY) :=
      mul_pos (sub_pos.mpr hx) (sub_pos.mpr hy)
    linarith [h.2.2]

/-- C10 at the stand box `addBox(-0.45, 0.45, -1.4, -0.2, -0.30, 0.30, ...)` of
`main`: the back face has normal `(0, 0, -1)` while the cross product of the edges of
its first triangle is `(0, 0, 1.08)`, so the winding of the back face does not agree
with its normal. -/
theorem stand_back_face_winding :
    vec3At (addBox Buffers.empty (-0.45) 0.45 (-1.4) (-0.2) (-0.30) 0.30
      [0.45, 0.28, 0.10, 1.0]).normals 6 = (0, 0, -1) ∧
    cross
      (vsub
        (vec3At (addBox Buffers.empty (-0.45) 0.45 (-1.4) (-0.2) (-0.30) 0.30
          [0.45, 0.28, 0.10, 1.0]).verts 7)
        (vec3At (addBox Buffers.empty (-0.45) 0.45 (-1.4) (-0.2) (-0.30) 0.30
          [0.45, 0.28, 0.10, 1.0]).verts 6))
      (vsub
        (vec3At (addBox Buffers.empty (-0.45) 0.45 (-1.4) (-0.2) (-0.30) 0.30
          [0.45, 0.28, 0.10, 1.0]).verts 8)
        (vec3At (addBox Buffers.empty (-0.45) 0.45 (-1.4) (-0.2) (-0.30) 0.30
          [0.45, 0.28, 0.10, 1.0]).verts 6)) = (0, 0, 1.08) ∧
    ¬ windingAgrees
        (addBox Buffers.empty (-0.45) 0.45 (-1.4) (-0.2) (-0.30) 0.30
          [0.45, 0.28, 0.10, 1.0]).verts
        (addBox Buffers.empty (-0.45) 0.45 (-1.4) (-0.2) (-0.30) 0.30
          [0.45, 0.28, 0.10, 1.0]).normals 1 := by
  have hw := (addBox_winding Buffers.empty
    ⟨-0.45, 0.45, -1.4, -0.2, -0.30, 0.30, [0.45, 0.28, 0.10, 1.0]⟩
    (by norm_num) (by norm_num) (by norm_num)).2
  have hb := (boxVerts_back_cross
    ⟨-0.45, 0.45, -1.4, -0.2, -0.30, 0.30, [0.45, 0.28, 0.10, 1.0]⟩).1
  simp only [Buffers.empty, List.length_nil, List.drop_zero] at hw
  refine ⟨rfl, ?_, hw⟩
  rw [addBox_verts]
  simp only [Buffers.empty, List.nil_append]
  rw [hb]
  norm_num

/-! ## C6 -/

theorem hexDigit_facts (c : Char) (h : c ∈ hexDigits) :
    isStrWhiteSpace c = false ∧ c ≠ '+' ∧ c ≠ '-' ∧ c ≠ 'x' ∧ c ≠ 'X' ∧
    radixDigit 16 c = some (hexValue c) ∧ hexValue c < 16 := by
  have h2 : c ∈ ['0', '1', '2', '3', '4', '5', '6', '7', '8', '9', 'a', 'b', 'c', 'd', 'e', 'f',
      'A', 'B', 'C', 'D', 'E', 'F'] := h
  simp only [List.mem_cons, List.mem_singleton, List.not_mem_nil, or_false] at h2
  rcases h2 with rfl | rfl | rfl | rfl | rfl | rfl | rfl | rfl | rfl | rfl | rfl | rfl | rfl |
    rfl | rfl | rfl | rfl | rfl | rfl | rfl | rfl | rfl <;> decide

theorem parseInt_two_hexDigits (a b : Char) (ha : a ∈ hexDigits) (hb : b ∈ hexDigits) :
    parseInt [a, b] 16 = some ((byteValue a b : ℕ) : ℤ) := by
  obtain ⟨a1, a2, a3, _, _, a6, _⟩ := hexDigit_facts a ha
  obtain ⟨_, _, _, b4, b5, b6, _⟩ := hexDigit_facts b hb
  simp [parseInt, List.dropWhile, List.takeWhile, a1, a2, a3, a6, b4, b5, b6, byteValue]
  ring

/-- C6: for `'#'` followed by six hexadecimal digits (either case) `hexToRgb` returns
the three two-digit base-16 values divided by 255, each component in `[0, 1]`; in
particular `"#ffffff"` gives `[1, 1, 1]`, `"#000000"` gives `[0, 0, 0]` and `"#202020"`
gives `[32/255, 32/255, 32/255]`, within `0.0001` of `0.1255`. -/
theorem hexToRgb_six_hex_digits (h1 h2 h3 h4 h5 h6 : Char)
    (m1 : h1 ∈ hexDigits) (m2 : h2 ∈ hexDigits) (m3 : h3 ∈ hexDigits)
    (m4 : h4 ∈ hexDigits) (m5 : h5 ∈ hexDigits) (m6 : h6 ∈ hexDigits) :
    hexToRgb ['#', h1, h2, h3, h4, h5, h6] =
      [some ((byteValue h1 h2 : ℚ) / 255), some ((byteValue h3 h4 : ℚ) / 255),
       some ((byteValue h5 h6 : ℚ) / 255)] ∧
    (0 ≤ (byteValue h1 h2 : ℚ) / 255 ∧ (byteValue h1 h2 : ℚ) / 255 ≤ 1) ∧
    (0 ≤ (byteValue h3 h4 : ℚ) / 255 ∧ (byteValue h3 h4 : ℚ) / 255 ≤ 1) ∧
    (0 ≤ (byteValue h5 h6 : ℚ) / 255 ∧ (byteValue h5 h6 : ℚ) / 255 ≤ 1) ∧
    hexToRgb "#ffffff".toList = [some 1, some 1, some 1] ∧
    hexToRgb "#000000".toList = [some 0, some 0, some 0] ∧
    hexToRgb "#202020".toList = [some (32 / 255), some (32 / 255), some (32 / 255)] ∧
    |(32 / 255 : ℚ) - 0.1255| < 0.0001 := by
  have bound : ∀ a b : Char, a ∈ hexDigits → b ∈ hexDigits →
      (0 ≤ (byteValue a b : ℚ) / 255 ∧ (byteValue a b : ℚ) / 255 ≤ 1) := by
    intro a b ha hb
    have x := (hexDigit_facts a ha).2.2.2.2.2.2
    have y := (hexDigit_facts b hb).2.2.2.2.2.2
    have le : byteValue a b ≤ 255 := by unfold byteValue; omega
    have le2 : (byteValue a b : ℚ) ≤ 255 := by exact_mod_cast le
    have nn : (0 : ℚ) ≤ (byteValue a b : ℚ) := Nat.cast_nonneg _
    constructor
    · positivity
    · rw [div_le_one (by norm_num)]; exact le2
  have eval : ∀ a b c d e f : Char, a ∈ hexDigits → b ∈ hexDigits → c ∈ hexDigits →
      d ∈ hexDigits → e ∈ hexDigits → f ∈ hexDigits →
      hexToRgb ['#', a, b, c, d, e, f] =
        [some ((byteValue a b : ℚ) / 255), some ((byteValue c d : ℚ) / 255),
         some ((byteValue e f : ℚ) / 255)] := by
    intro a b c d e f ha hb hc hd he hf
    have s1 : slice ['#', a, b, c, d, e, f] 1 3 = [a, b] := rfl
    have s2 : slice ['#', a, b, c, d, e, f] 3 5 = [c, d] := rfl
    have s3 : slice ['#', a, b, c, d, e, f] 5 7 = [e, f] := rfl
    simp only [hexToRgb, s1, s2, s3, parseInt_two_hexDigits a b ha hb,
      parseInt_two_hexDigits c d hc hd, parseInt_two_hexDigits e f he hf, Option.map_some',
      Int.cast_natCast]
  refine ⟨eval _ _ _ _ _ _ m1 m2 m3 m4 m5 m6, bound _ _ m1 m2, bound _ _ m3 m4,
    bound _ _ m5 m6, ?_, ?_, ?_, ?_⟩
  · have e := eval 'f' 'f' 'f' 'f' 'f' 'f' (by decide) (by decide) (by decide) (by decide)
      (by decide) (by decide)
    have v : byteValue 'f' 'f' = 255 := by decide
    rw [v] at e
    rw [show "#ffffff".toList = ['#', 'f', 'f', 'f', 'f', 'f', 'f'] from rfl, e]
    norm_num
  · have e := eval '0' '0' '0' '0' '0' '0' (by decide) (by decide) (by decide) (by decide)
      (by decide) (by decide)
    have v : byteValue '0' '0' = 0 := by decide
    rw [v] at e
    rw [show "#000000".toList = ['#', '0', '0', '0', '0', '0', '0'] from rfl, e]
    norm_num
  · have e := eval '2' '0' '2' '0' '2' '0' (by decide) (by decide) (by decide) (by decide)
      (by decide) (by decide)
    have v : byteValue '2' '0' = 32 := by decide
    rw [v] at e
    rw [show "#202020".toList = ['#', '2', '0', '2', '0', '2', '0'] from rfl, e]
    norm_num
  · rw [abs_lt]; constructor <;> norm_num

/-- C6 at `"#1aF0c3"`. -/
theorem hexToRgb_six_hex_digits_witness :
    hexToRgb ['#', '1', 'a', 'F', '0', 'c', '3'] =
      [some ((byteValue '1' 'a' : ℚ) / 255), some ((byteValue 'F' '0' : ℚ) / 255),
       some ((byteValue 'c' '3' : ℚ) / 255)] ∧
    (0 ≤ (byteValue '1' 'a' : ℚ) / 255 ∧ (byteValue '1' 'a' : ℚ) / 255 ≤ 1) ∧
    (0 ≤ (byteValue 'F' '0' : ℚ) / 255 ∧ (byteValue 'F' '0' : ℚ) / 255 ≤ 1) ∧
    (0 ≤ (byteValue 'c' '3' : ℚ) / 255 ∧ (byteValue 'c' '3' : ℚ) / 255 ≤ 1) ∧
    hexToRgb "#ffffff".toList = [some 1, some 1, some 1] ∧
    hexToRgb "#000000".toList = [some 0, some 0, some 0] ∧
    hexToRgb "#202020".toList = [some (32 / 255), some (32 / 255), some (32 / 255)] ∧
    |(32 / 255 : ℚ) - 0.1255| < 0.0001 :=
  hexToRgb_six_hex_digits '1' 'a' 'F' '0' 'c' '3' (by decide) (by decide) (by decide)
    (by decide) (by decide) (by decide)

/-! ## C9 -/

theorem buildModel_verts_start :
    ∃ rest : List ℚ, buildModel.buffers.verts =
      boxVerts (-0.45) 0.45 (-1.4) (-0.2) (-0.30) 0.30 ++ rest := by
  simp only [buildModel, addVents, List.range, List.range.loop, List.foldl, addBox_verts,
    Buffers.empty, List.nil_append, List.append_assoc]
  exact ⟨_, rfl⟩

theorem vec3At_append_left (l1 l2 : List ℚ) (i : ℕ) (h : 3 * i + 2 < l1.length) :
    vec3At (l1 ++ l2) i = vec3At l1 i := by
  simp only [vec3At]
  rw [List.getD_append _ _ _ _ (by omega), List.getD_append _ _ _ _ (by omega),
    List.getD_append _ _ _ _ h]

theorem rangeVertices_append_left (l1 l2 : List ℚ) (count : ℕ) (h : 3 * count ≤ l1.length) :
    rangeVertices (l1 ++ l2) 0 count = rangeVertices l1 0 count := by
  unfold rangeVertices
  apply List.map_congr_left
  intro i hi
  rw [List.mem_range] at hi
  exact vec3At_append_left l1 l2 (0 + i) (by omega)

/-- The 36 positions built for the stand range. -/
theorem stand_vertices :
    rangeVertices buildModel.buffers.verts 0 36 =
      rangeVertices (boxVerts (-0.45) 0.45 (-1.4) (-0.2) (-0.30) 0.30) 0 36 := by
  obtain ⟨rest, h⟩ := buildModel_verts_start
  rw [h]
  exact rangeVertices_append_left _ _ 36 (by rw [boxVerts_length])

theorem transformPoint_one (p : ℚ × ℚ × ℚ) : transformPoint (1 : Mat4) p = p := by
  simp [transformPoint]

theorem worldVertices_one (verts : List ℚ) (start count : ℕ) :
    worldVertices (1 : Mat4) verts start count = rangeVertices verts start count := by
  unfold worldVertices
  have e : transformPoint (1 : Mat4) = id := funext transformPoint_one
  rw [e, List.map_id]

theorem stand_center :
    extentCenter (rangeVertices (boxVerts (-0.45) 0.45 (-1.4) (-0.2) (-0.30) 0.30) 0 36) =
      (0, -0.8, 0) ∧
    meanPoint (rangeVertices (boxVerts (-0.45) 0.45 (-1.4) (-0.2) (-0.30) 0.30) 0 36) =
      (0, -0.8, 0) := by
  have e : rangeVertices (boxVerts (-0.45) 0.45 (-1.4) (-0.2) (-0.30) 0.30) 0 36 =
      (List.range 36).map
        (fun i => vec3At (boxVerts (-0.45) 0.45 (-1.4) (-0.2) (-0.30) 0.30) (0 + i)) := rfl
  rw [e]
  simp only [List.range, List.range.loop, List.map, vec3At, boxVerts, Nat.reduceMul,
    Nat.reduceAdd, List.getD_cons_succ, List.getD_cons_zero, extentCenter, meanPoint, listMin,
    listMax, List.headD, List.foldl, List.sum_cons, List.sum_nil, List.length_cons,
    List.length_nil]
  norm_num

theorem M_stand_identity (s : RenderState) (hroot : s.root = 1)
    (hstand : s.standT = ⟨0, 0, 0⟩) : M_stand s = 1 := by
  simp only [M_stand, mult, hroot, hstand, translate_zero, Matrix.one_mul]

/-- C9 (amended): with the root transform the identity and the stand and machine
offsets zero, `M_stand` and `M_mach` are the identity, every world-space vertex of the stand range
(vertices 0..35) is the position built for it, and the centre of the stand, the
midpoint of its extents on each axis and also the mean of its vertex positions, is
`(0, -0.8, 0)`. -/
theorem stand_world_identity (s : RenderState) (hroot : s.root = 1)
    (hstand : s.standT = ⟨0, 0, 0⟩) (hmach : s.machT = ⟨0, 0, 0⟩) :
    M_stand s = 1 ∧ M_mach s = 1 ∧
    buildModel.standStart = 0 ∧ buildModel.standCount = 36 ∧
    worldVertices (M_stand s) buildModel.buffers.verts 0 36 =
      rangeVertices buildModel.buffers.verts 0 36 ∧
    extentCenter (worldVertices (M_stand s) buildModel.buffers.verts 0 36) = (0, -0.8, 0) ∧
    meanPoint (worldVertices (M_stand s) buildModel.buffers.verts 0 36) = (0, -0.8, 0) := by
  have hM := M_stand_identity s hroot hstand
  have hM2 : M_mach s = 1 := by
    simp only [M_mach, mult, hM, hmach, translate_zero, Matrix.one_mul]
  rw [hM2, hM, worldVertices_one, stand_vertices]
  exact ⟨rfl, rfl, buildModel_ranges_eq.1, buildModel_ranges_eq.2.1, rfl, stand_center.1,
    stand_center.2⟩

/-- C9 (amended) at the state with identity root and view matrices, all offsets zero. -/
theorem stand_world_identity_witness :
    M_stand ⟨1, 1, ⟨0, 0, 0⟩, ⟨0, 0, 0⟩, ⟨0, 0, 0⟩, 0, true, false⟩ = 1 ∧
    M_mach ⟨1, 1, ⟨0, 0, 0⟩, ⟨0, 0, 0⟩, ⟨0, 0, 0⟩, 0, true, false⟩ = 1 ∧
    buildModel.standStart = 0 ∧ buildModel.standCount = 36 ∧
    worldVertices (M_stand ⟨1, 1, ⟨0, 0, 0⟩, ⟨0, 0, 0⟩, ⟨0, 0, 0⟩, 0, true, false⟩)
        buildModel.buffers.verts 0 36 =
      rangeVertices buildModel.buffers.verts 0 36 ∧
    extentCenter (worldVertices (M_stand ⟨1, 1, ⟨0, 0, 0⟩, ⟨0, 0, 0⟩, ⟨0, 0, 0⟩, 0, true, false⟩)
        buildModel.buffers.verts 0 36) = (0, -0.8, 0) ∧
    meanPoint (worldVertices (M_stand ⟨1, 1, ⟨0, 0, 0⟩, ⟨0, 0, 0⟩, ⟨0, 0, 0⟩, 0, true, false⟩)
        buildModel.buffers.verts 0 36) = (0, -0.8, 0) :=
  stand_world_identity ⟨1, 1, ⟨0, 0, 0⟩, ⟨0, 0, 0⟩, ⟨0, 0, 0⟩, 0, true, false⟩ rfl rfl rfl

/-- C9 as stated fails: with identity root and zero offsets the centre of the stand
is `(0, -0.8, 0)`, not `(0, -0.825, 0)`. -/
theorem stand_center_not_0825 :
    extentCenter (worldVertices (M_stand ⟨1, 1, ⟨0, 0, 0⟩, ⟨0, 0, 0⟩, ⟨0, 0, 0⟩, 0, true, false⟩)
        buildModel.buffers.verts 0 36) ≠ (0, -0.825, 0) ∧
    meanPoint (worldVertices (M_stand ⟨1, 1, ⟨0, 0, 0⟩, ⟨0, 0, 0⟩, ⟨0, 0, 0⟩, 0, true, false⟩)
        buildModel.buffers.verts 0 36) ≠ (0, -0.825, 0) := by
  have hM := M_stand_identity ⟨1, 1, ⟨0, 0, 0⟩, ⟨0, 0, 0⟩, ⟨0, 0, 0⟩, 0, true, false⟩ rfl rfl
  rw [hM, worldVertices_one, stand_vertices, stand_center.1, stand_center.2]
  constructor <;> norm_num

end CoffeeMachine
